import Mathlib

/-!
Verification of `app/dockerdwrapperwithcompose.c`, the dockerd supervisor of
the docker-compose-acap application.

The C program is shallowly embedded as pure Lean functions.  Interactions with
the outside world (parameter store reads, filesystem probes, signal sends,
process spawning, the bounded wait inside `stop_dockerd`) are made explicit as
input records (`Params`, `Fs`, `StopEnv`, `SpawnEnv`); the global mutable
state of the C file (`exit_code`, `dockerd_process_pid`, `restart_dockerd`,
the running GLib main loop) is the record `SysState`, threaded through the
handlers.  Observable side effects that the claims mention (signals sent,
error logs) are returned as traces.
-/

namespace DockerdWrapper

/-- `struct settings` from the C source: the validated configuration snapshot.
`data_root = none` models the C `NULL` pointer. -/
structure Settings where
  data_root : Option String
  use_tls : Bool
  use_ipc_socket : Bool
deriving Repr, DecidableEq

/-- The three parameter values read from the AXParameter store, already
interpreted through `is_parameter_yes` (a parameter is "yes" exactly when its
value string is `"yes"`; absent or other values read as false). -/
structure Params where
  sdCardSupport : Bool
  useTLS : Bool
  ipcSocket : Bool
deriving Repr, DecidableEq

/-- Filesystem facts consulted by the resolver, one field per syscall site in
the C source:
* `mkdirOk` — the `system("mkdir -p <data_root>")` call in `setup_sdcard`
  returned 0;
* `fsType` — result of `get_filesystem_of_path(data_root)` (`none` models a
  `NULL` return: `stat` failed or no mount entry matched);
* `dataRootPresent` — `access(data_root, F_OK) == 0`;
* `dataRootWritable` — `access(data_root, W_OK) == 0`;
* `caExists`, `certExists`, `keyExists` — `access(<cert file>, F_OK) == 0`
  for the three TLS files checked in `get_and_verify_tls_selection`. -/
structure Fs where
  mkdirOk : Bool
  fsType : Option String
  dataRootPresent : Bool
  dataRootWritable : Bool
  caExists : Bool
  certExists : Bool
  keyExists : Bool
deriving Repr, DecidableEq

/-- Global state of the C file: `exit_code`, `dockerd_process_pid` (`none`
models the sentinel `-1`), `restart_dockerd`, and whether the GLib main loop
is still running (`g_main_loop_quit` sets it to `false`). -/
structure SysState where
  exit_code : Int
  dockerd_process_pid : Option Nat
  restart_dockerd : Bool
  loop_running : Bool
deriving Repr, DecidableEq

/-- State at the top of `main`: `exit_code = 0`, no pid tracked, no restart
pending, loop (about to be) running. -/
def initState : SysState :=
  { exit_code := 0, dockerd_process_pid := none, restart_dockerd := false,
    loop_running := true }

/-- `dockerd_path_on_sd_card` from the C source. -/
def dockerd_path_on_sd_card : String := "/var/spool/storage/SD_DISK/dockerd"

/-- `ax_parameters` from the C source: the three watched parameter names. -/
def ax_parameters : List String := ["IPCSocket", "SDCardSupport", "UseTLS"]

/-- `tls_cert_path` from the C source. -/
def tls_cert_path : String := "/usr/local/packages/dockerdwrapperwithcompose/"

/-- `tls_certs` from the C source. -/
def tls_certs : List String := ["ca.pem", "server-cert.pem", "server-key.pem"]

/-- `setup_sdcard` from the C source: create the data-root directory, read the
filesystem type of its containing mount, reject `vfat`/`exfat`, and reject an
existing but unwritable directory.  The `data_root` string argument of the C
function only feeds the syscalls abstracted by `fs`, so it does not appear. -/
def setup_sdcard (fs : Fs) : Bool :=
  if ¬fs.mkdirOk then false
  else
    match fs.fsType with
    | none => false
    | some t =>
      if t = "vfat" ∨ t = "exfat" then false
      else if fs.dataRootPresent ∧ ¬fs.dataRootWritable then false
      else true

/-- `get_and_verify_sd_card_selection` from the C source: when
`SDCardSupport` is "yes", derive the fixed data path on the SD card and
validate it with `setup_sdcard`; otherwise leave `data_root` as `NULL`.
Returns `none` on failure (C `false`), `some data_root` on success. -/
def get_and_verify_sd_card_selection (p : Params) (fs : Fs) :
    Option (Option String) :=
  if p.sdCardSupport then
    if setup_sdcard fs then some (some (dockerd_path_on_sd_card ++ "/data"))
    else none
  else some none

/-- `get_and_verify_tls_selection` from the C source: when `UseTLS` is "yes",
all three certificate files must exist at the fixed install path; otherwise
the function fails (C `false`, modelled `none`).  When `UseTLS` is "no" it
succeeds with `use_tls = false`. -/
def get_and_verify_tls_selection (p : Params) (fs : Fs) : Option Bool :=
  if p.useTLS then
    if fs.caExists ∧ fs.certExists ∧ fs.keyExists then some true else none
  else some false

/-- `get_ipc_socket_selection` from the C source: plain pass-through, always
succeeds. -/
def get_ipc_socket_selection (p : Params) : Option Bool :=
  some p.ipcSocket

/-- `read_settings` from the C source: sequence the three selection readers,
failing as soon as one fails. -/
def read_settings (p : Params) (fs : Fs) : Option Settings :=
  match get_and_verify_sd_card_selection p fs with
  | none => none
  | some dr =>
    match get_and_verify_tls_selection p fs with
    | none => none
    | some tls =>
      match get_ipc_socket_selection p with
      | none => none
      | some ipc =>
        some { data_root := dr, use_tls := tls, use_ipc_socket := ipc }

/-- The argument string built into `args[]` by `start_dockerd` in the C
source, by successive `g_snprintf` appends: base command and config-file flag;
the TLS block or the plain-TCP block; the `--data-root` flag when `data_root`
is non-`NULL`; the unix-socket bind when `use_ipc_socket`. -/
def start_dockerd_args (s : Settings) : String :=
  "dockerd --config-file /usr/local/packages/dockerdwrapperwithcompose/localdata/daemon.json"
  ++ (if s.use_tls then
        " -H tcp://0.0.0.0:2376 --tlsverify"
        ++ " --tlscacert /usr/local/packages/dockerdwrapperwithcompose/ca.pem"
        ++ " --tlscert /usr/local/packages/dockerdwrapperwithcompose/server-cert.pem"
        ++ " --tlskey /usr/local/packages/dockerdwrapperwithcompose/server-key.pem"
      else " -H tcp://0.0.0.0:2375 --tls=false")
  ++ (match s.data_root with
      | some dr => " --data-root " ++ dr
      | none => "")
  ++ (if s.use_ipc_socket then " -H unix:///var/run/docker.sock" else "")

/-- Helper for `g_strsplit_spaces`: walk the character list, cutting a token
at every space (GLib's `g_strsplit` with delimiter `" "` and no token merging).
`acc` holds the current token's characters in reverse. -/
def split_spaces_aux : List Char → List Char → List String
  | [], acc => [String.mk acc.reverse]
  | c :: cs, acc =>
    if c = ' ' then String.mk acc.reverse :: split_spaces_aux cs []
    else split_spaces_aux cs (c :: acc)

/-- `g_strsplit(args, " ", 0)` from the C source: split the string at every
single space character. -/
def g_strsplit_spaces (s : String) : List String :=
  split_spaces_aux s.data []

/-- The argument vector the C source hands to `g_spawn_async`: the built
argument string split on single spaces. -/
def start_dockerd_argv (s : Settings) : List String :=
  g_strsplit_spaces (start_dockerd_args s)

/-- Modelled from the spec (§4.2 Daemon Launcher), for comparison with the
argument vector the source builds: base command plus fixed config-file flag;
then, under TLS, the 2376 bind address with the tls-verify/CA/cert/key flags,
otherwise the 2375 bind address with TLS disabled; then `--data-root <path>`
exactly when `data_root` is set; then the unix-socket bind exactly when
`use_ipc_socket` holds. -/
def launch_argv_spec (s : Settings) : List String :=
  ["dockerd", "--config-file",
   "/usr/local/packages/dockerdwrapperwithcompose/localdata/daemon.json"]
  ++ (if s.use_tls then
        ["-H", "tcp://0.0.0.0:2376", "--tlsverify",
         "--tlscacert", "/usr/local/packages/dockerdwrapperwithcompose/ca.pem",
         "--tlscert",
         "/usr/local/packages/dockerdwrapperwithcompose/server-cert.pem",
         "--tlskey",
         "/usr/local/packages/dockerdwrapperwithcompose/server-key.pem"]
      else ["-H", "tcp://0.0.0.0:2375", "--tls=false"])
  ++ (match s.data_root with
      | some dr => ["--data-root", dr]
      | none => [])
  ++ (if s.use_ipc_socket then ["-H", "unix:///var/run/docker.sock"] else [])

/-- Outcomes of the spawn-related syscalls inside `start_dockerd`:
`spawnOk` — `g_spawn_async` returned TRUE; `newPid` — the pid it stored into
`dockerd_process_pid`; `alive` — the immediate `is_process_alive` probe found
the child still running. -/
structure SpawnEnv where
  spawnOk : Bool
  newPid : Nat
  alive : Bool
deriving Repr, DecidableEq

/-- `start_dockerd` from the C source, as a state transition: on spawn failure
return false leaving the state alone; on spawn success record the new pid,
and if the immediate liveness probe finds the child dead, set `exit_code = -1`,
quit the main loop and return false; otherwise return true. -/
def start_dockerd (env : SpawnEnv) (st : SysState) : Bool × SysState :=
  if ¬env.spawnOk then (false, st)
  else
    let st1 := { st with dockerd_process_pid := some env.newPid }
    if ¬env.alive then
      (false, { st1 with exit_code := -1, loop_running := false })
    else (true, st1)

/-- `read_settings_and_start_dockerd` from the C source: resolve the settings,
then launch; fail without spawning when resolution fails. -/
def read_settings_and_start_dockerd (p : Params) (fs : Fs) (env : SpawnEnv)
    (st : SysState) : Bool × SysState :=
  match read_settings p fs with
  | none => (false, st)
  | some _ => start_dockerd env st

/-- The two signals `stop_dockerd` can send. -/
inductive Sig where
  | SIGTERM
  | SIGKILL
deriving Repr, DecidableEq

/-- Outcomes of the environment-dependent steps inside `stop_dockerd`:
`sigtermOk` — the `kill(pid, SIGTERM)` syscall returned 0;
`exitDuringWait` — the child-exit handler cleared `dockerd_process_pid` to the
sentinel before the 10-second bounded wait elapsed (the sleep is interrupted
when the exit notification arrives);
`sigkillOk` — the `kill(pid, SIGKILL)` syscall returned 0. -/
structure StopEnv where
  sigtermOk : Bool
  exitDuringWait : Bool
  sigkillOk : Bool
deriving Repr, DecidableEq

/-- Result of `stop_dockerd`: the C return value, the state after the bounded
wait, the signals whose send was attempted, and the error lines logged. -/
structure StopResult where
  ok : Bool
  st : SysState
  sigs : List Sig
  logs : List String
deriving Repr, DecidableEq

/-- `stop_dockerd` from the C source: succeed trivially when no pid is
tracked; otherwise attempt SIGTERM (logging, but not failing, when the send
errors), wait up to 10 seconds for the exit handler to clear the pid and
succeed immediately if it does, else attempt SIGKILL and return whether that
send succeeded. -/
def stop_dockerd (senv : StopEnv) (st : SysState) : StopResult :=
  match st.dockerd_process_pid with
  | none => { ok := true, st := st, sigs := [], logs := [] }
  | some _ =>
    let logs := if ¬senv.sigtermOk then ["Failed to send SIGTERM to child."]
                else []
    let st1 := if senv.exitDuringWait
               then { st with dockerd_process_pid := none } else st
    match st1.dockerd_process_pid with
    | none => { ok := true, st := st1, sigs := [Sig.SIGTERM], logs := logs }
    | some _ =>
      { ok := senv.sigkillOk, st := st1, sigs := [Sig.SIGTERM, Sig.SIGKILL],
        logs := logs ++ (if ¬senv.sigkillOk
                         then ["Failed to send SIGKILL to child."] else []) }

/-- `dockerd_process_exited_callback` from the C source.  `statusOk` is
`g_spawn_check_exit_status(status, ...)`: true exactly when the daemon
terminated normally with exit code 0.  An abnormal status records
`exit_code = -1` first; the tracked pid is then cleared; if a restart is
pending the flag is cleared and `read_settings_and_start_dockerd` is retried
(its failure records `exit_code = -1` and quits the loop); with no pending
restart the loop is quit. -/
def dockerd_process_exited_callback (statusOk : Bool) (p : Params) (fs : Fs)
    (env : SpawnEnv) (st : SysState) : SysState :=
  let st1 := if ¬statusOk then { st with exit_code := -1 } else st
  let st2 := { st1 with dockerd_process_pid := none }
  if st2.restart_dockerd then
    let st3 := { st2 with restart_dockerd := false }
    let r := read_settings_and_start_dockerd p fs env st3
    if r.1 then r.2
    else { r.2 with exit_code := -1, loop_running := false }
  else { st2 with loop_running := false }

/-- The fixed string whose length `parameter_changed_callback` skips over at
the front of the notified parameter name. -/
def param_path_root : String := "root.dockerdwrapperwithcompose."

/-- The name comparison done by `parameter_changed_callback`:
`name += strlen("root.dockerdwrapperwithcompose.")` then `strcmp` against
each watched parameter, setting the restart flag on a match. -/
def parname_of (name : String) : String :=
  name.drop param_path_root.length

/-- `parameter_changed_callback` from the C source: set the restart flag when
the (prefix-stripped) name matches a watched parameter, then unconditionally
stop the running dockerd; when the stop fails, record `exit_code = -1` (the
operator is asked to restart manually; the loop is not quit).  Returns the
final state together with the `stop_dockerd` result (for its traces). -/
def parameter_changed_callback (name : String) (senv : StopEnv)
    (st : SysState) : SysState × StopResult :=
  let st1 := if parname_of name ∈ ax_parameters
             then { st with restart_dockerd := true } else st
  let r := stop_dockerd senv st1
  if r.ok then (r.st, r) else ({ r.st with exit_code := -1 }, r)

/-- The events serialized by the GLib main loop, with the syscall outcomes
each one consumes.  `initialLaunch` is the `read_settings_and_start_dockerd`
call in `main` (its failure sets `exit_code = -1`); `finalStop` is the
`stop_dockerd` at `main`'s `end:` label (its result is only logged, never
recorded in `exit_code`). -/
inductive Ev where
  | initialLaunch (p : Params) (fs : Fs) (env : SpawnEnv)
  | paramChanged (name : String) (senv : StopEnv)
  | childExited (statusOk : Bool) (p : Params) (fs : Fs) (env : SpawnEnv)
  | finalStop (senv : StopEnv)

/-- One step of the supervisor state machine: dispatch one event to the C
handler that consumes it. -/
def step (st : SysState) (e : Ev) : SysState :=
  match e with
  | Ev.initialLaunch p fs env =>
    let r := read_settings_and_start_dockerd p fs env st
    if r.1 then r.2 else { r.2 with exit_code := -1, loop_running := false }
  | Ev.paramChanged name senv => (parameter_changed_callback name senv st).1
  | Ev.childExited statusOk p fs env =>
    dockerd_process_exited_callback statusOk p fs env st
  | Ev.finalStop senv => (stop_dockerd senv st).st

/-- Run a sequence of events from a state. -/
def run (st : SysState) : List Ev → SysState
  | [] => st
  | e :: es => run (step st e) es

/-- Whether a `read_settings_and_start_dockerd` attempt succeeds: the settings
resolve and the spawn succeeds and the immediate liveness probe passes.  (Its
success flag depends only on these inputs, not on the state — see
`read_settings_and_start_dockerd_fst`.) -/
def launch_ok (p : Params) (fs : Fs) (env : SpawnEnv) : Bool :=
  (read_settings p fs).isSome && env.spawnOk && env.alive

theorem read_settings_and_start_dockerd_fst (p : Params) (fs : Fs)
    (env : SpawnEnv) (st : SysState) :
    (read_settings_and_start_dockerd p fs env st).1 = launch_ok p fs env := by
  unfold read_settings_and_start_dockerd launch_ok start_dockerd
  cases read_settings p fs <;> cases henv : env.spawnOk <;>
    cases halive : env.alive <;> simp [henv, halive]

/-! ## Claim theorems -/

/-- C8: `stop_dockerd` invoked when no pid is tracked returns success without
sending any signal and leaves the state unchanged; invoking it repeatedly in
that state is idempotent. -/
theorem stop_idempotent_when_already_stopped (st : SysState)
    (senv senv2 : StopEnv) (h : st.dockerd_process_pid = none) :
    stop_dockerd senv st = { ok := true, st := st, sigs := [], logs := [] } ∧
    stop_dockerd senv2 (stop_dockerd senv st).st
      = { ok := true, st := st, sigs := [], logs := [] } := by
  have h1 : stop_dockerd senv st
      = { ok := true, st := st, sigs := [], logs := [] } := by
    unfold stop_dockerd
    rw [h]
  refine ⟨h1, ?_⟩
  rw [h1]
  unfold stop_dockerd
  rw [h]

theorem stop_idempotent_when_already_stopped_witness :
    stop_dockerd ⟨true, false, true⟩ initState
      = { ok := true, st := initState, sigs := [], logs := [] } ∧
    stop_dockerd ⟨false, true, false⟩
        (stop_dockerd ⟨true, false, true⟩ initState).st
      = { ok := true, st := initState, sigs := [], logs := [] } :=
  stop_idempotent_when_already_stopped initState ⟨true, false, true⟩
    ⟨false, true, false⟩ rfl

/-- C2: during `stop_dockerd` with a tracked pid, the bounded wait is
cancelled early: if the child-exit handler clears the tracked pid before the
timeout elapses, the stop returns success immediately, with the pid cleared
and no SIGKILL ever sent. -/
theorem stop_wait_cancelled_early (st : SysState) (senv : StopEnv) (q : Nat)
    (hpid : st.dockerd_process_pid = some q)
    (hexit : senv.exitDuringWait = true) :
    (stop_dockerd senv st).ok = true ∧
    (stop_dockerd senv st).st = { st with dockerd_process_pid := none } ∧
    Sig.SIGKILL ∉ (stop_dockerd senv st).sigs := by
  unfold stop_dockerd
  rw [hpid]
  simp [hexit]

theorem stop_wait_cancelled_early_witness :
    (stop_dockerd ⟨true, true, false⟩
        { exit_code := 0, dockerd_process_pid := some 7,
          restart_dockerd := false, loop_running := true }).ok = true ∧
    (stop_dockerd ⟨true, true, false⟩
        { exit_code := 0, dockerd_process_pid := some 7,
          restart_dockerd := false, loop_running := true }).st
      = { exit_code := 0, dockerd_process_pid := none,
          restart_dockerd := false, loop_running := true } ∧
    Sig.SIGKILL ∉ (stop_dockerd ⟨true, true, false⟩
        { exit_code := 0, dockerd_process_pid := some 7,
          restart_dockerd := false, loop_running := true }).sigs :=
  stop_wait_cancelled_early
    { exit_code := 0, dockerd_process_pid := some 7,
      restart_dockerd := false, loop_running := true }
    ⟨true, true, false⟩ 7 rfl rfl

/-- C7: in `stop_dockerd` with a tracked pid, a failed SIGTERM send is logged
but does not affect the result; and when the pid is still tracked after the
bounded wait, SIGKILL is sent and the result equals the success of that kill
syscall. -/
theorem stop_sigterm_benign_sigkill_decides (st : SysState) (q : Nat)
    (t w k : Bool) (hpid : st.dockerd_process_pid = some q) :
    (stop_dockerd ⟨false, w, k⟩ st).ok = (stop_dockerd ⟨true, w, k⟩ st).ok ∧
    "Failed to send SIGTERM to child." ∈ (stop_dockerd ⟨false, w, k⟩ st).logs ∧
    (stop_dockerd ⟨t, false, k⟩ st).sigs = [Sig.SIGTERM, Sig.SIGKILL] ∧
    (stop_dockerd ⟨t, false, k⟩ st).ok = k := by
  unfold stop_dockerd
  rw [hpid]
  cases w <;> cases k <;> simp [hpid]

theorem stop_sigterm_benign_sigkill_decides_witness :
    (stop_dockerd ⟨false, false, false⟩
        { exit_code := 0, dockerd_process_pid := some 7,
          restart_dockerd := false, loop_running := true }).ok
      = (stop_dockerd ⟨true, false, false⟩
        { exit_code := 0, dockerd_process_pid := some 7,
          restart_dockerd := false, loop_running := true }).ok ∧
    "Failed to send SIGTERM to child." ∈ (stop_dockerd ⟨false, false, false⟩
        { exit_code := 0, dockerd_process_pid := some 7,
          restart_dockerd := false, loop_running := true }).logs ∧
    (stop_dockerd ⟨false, false, false⟩
        { exit_code := 0, dockerd_process_pid := some 7,
          restart_dockerd := false, loop_running := true }).sigs
      = [Sig.SIGTERM, Sig.SIGKILL] ∧
    (stop_dockerd ⟨false, false, false⟩
        { exit_code := 0, dockerd_process_pid := some 7,
          restart_dockerd := false, loop_running := true }).ok = false :=
  stop_sigterm_benign_sigkill_decides
    { exit_code := 0, dockerd_process_pid := some 7,
      restart_dockerd := false, loop_running := true }
    7 false false false rfl

/-- C5: with `UseTLS` selected and at least one of the three certificate files
absent, `get_and_verify_tls_selection` fails, `read_settings` fails, and no
daemon is launched (the launch wrapper returns false leaving the state
untouched), for every combination of presence of the other files. -/
theorem tls_partial_config_never_launches (p : Params) (fs : Fs)
    (htls : p.useTLS = true)
    (hmiss : fs.caExists = false ∨ fs.certExists = false ∨
             fs.keyExists = false) :
    get_and_verify_tls_selection p fs = none ∧
    read_settings p fs = none ∧
    ∀ env st, read_settings_and_start_dockerd p fs env st = (false, st) := by
  have h1 : get_and_verify_tls_selection p fs = none := by
    unfold get_and_verify_tls_selection
    rcases hmiss with h | h | h <;> simp [htls, h]
  have h2 : read_settings p fs = none := by
    unfold read_settings
    cases get_and_verify_sd_card_selection p fs <;> simp [h1]
  refine ⟨h1, h2, ?_⟩
  intro env st
  unfold read_settings_and_start_dockerd
  rw [h2]

theorem tls_partial_config_never_launches_witness :
    get_and_verify_tls_selection ⟨false, true, false⟩
        ⟨true, some "ext4", true, true, true, true, false⟩ = none ∧
    read_settings ⟨false, true, false⟩
        ⟨true, some "ext4", true, true, true, true, false⟩ = none ∧
    ∀ env st, read_settings_and_start_dockerd ⟨false, true, false⟩
        ⟨true, some "ext4", true, true, true, true, false⟩ env st
      = (false, st) :=
  tls_partial_config_never_launches ⟨false, true, false⟩
    ⟨true, some "ext4", true, true, true, true, false⟩ rfl
    (Or.inr (Or.inr rfl))

/-- C6: with `SDCardSupport` selected and the filesystem type of the mount
containing the storage path being `vfat` or `exfat`, the SD-card verification
fails and the whole `read_settings` fails; there is no silent fallback to a
configuration without SD storage. -/
theorem sdcard_bad_filesystem_fails_resolve (p : Params) (fs : Fs)
    (hsd : p.sdCardSupport = true)
    (hfs : fs.fsType = some "vfat" ∨ fs.fsType = some "exfat") :
    get_and_verify_sd_card_selection p fs = none ∧
    read_settings p fs = none := by
  have hsetup : setup_sdcard fs = false := by
    unfold setup_sdcard
    rcases hfs with h | h <;> rw [h] <;> cases hmk : fs.mkdirOk <;> simp
  have h1 : get_and_verify_sd_card_selection p fs = none := by
    unfold get_and_verify_sd_card_selection
    simp [hsd, hsetup]
  refine ⟨h1, ?_⟩
  unfold read_settings
  rw [h1]

theorem sdcard_bad_filesystem_fails_resolve_witness :
    get_and_verify_sd_card_selection ⟨true, false, false⟩
        ⟨true, some "vfat", true, true, true, true, true⟩ = none ∧
    read_settings ⟨true, false, false⟩
        ⟨true, some "vfat", true, true, true, true, true⟩ = none :=
  sdcard_bad_filesystem_fails_resolve ⟨true, false, false⟩
    ⟨true, some "vfat", true, true, true, true, true⟩ rfl (Or.inl rfl)

theorem sd_card_selection_data_root (p : Params) (fs : Fs) (dr : Option String)
    (h : get_and_verify_sd_card_selection p fs = some dr) :
    dr = none ∨ dr = some (dockerd_path_on_sd_card ++ "/data") := by
  unfold get_and_verify_sd_card_selection at h
  by_cases hsd : p.sdCardSupport
  · by_cases hsetup : setup_sdcard fs <;> simp [hsd, hsetup] at h
    exact Or.inr h.symm
  · simp [hsd] at h
    exact Or.inl h.symm

theorem read_settings_data_root (p : Params) (fs : Fs) (s : Settings)
    (h : read_settings p fs = some s) :
    s.data_root = none ∨
    s.data_root = some (dockerd_path_on_sd_card ++ "/data") := by
  unfold read_settings at h
  cases hsd : get_and_verify_sd_card_selection p fs with
  | none => rw [hsd] at h; exact absurd h (by simp)
  | some dr =>
    rw [hsd] at h
    cases htls : get_and_verify_tls_selection p fs with
    | none => rw [htls] at h; exact absurd h (by simp)
    | some tls =>
      rw [htls] at h
      unfold get_ipc_socket_selection at h
      have hdr : s.data_root = dr := by
        cases h' : h.symm
        rfl
      rw [hdr]
      exact sd_card_selection_data_root p fs dr hsd

/-- C3: for every validated `Settings` snapshot (one produced by
`read_settings`), the argument vector the source builds and splits equals the
spec-described vector: base command plus config-file flag, then the TLS block
(2376 bind, tls-verify, CA/cert/key flags) or the plain block (2375 bind, TLS
disabled), then `--data-root` exactly when `data_root` is set, then the
unix-socket bind exactly when `use_ipc_socket` holds. -/
theorem start_dockerd_argv_matches_spec (p : Params) (fs : Fs) (s : Settings)
    (h : read_settings p fs = some s) :
    start_dockerd_argv s = launch_argv_spec s := by
  have hdr := read_settings_data_root p fs s h
  rcases s with ⟨dr, tls, ipc⟩
  simp only at hdr
  rcases hdr with h1 | h1 <;> rw [h1] <;> cases tls <;> cases ipc <;> decide

theorem start_dockerd_argv_matches_spec_witness :
    read_settings ⟨true, true, true⟩
        ⟨true, some "ext4", true, true, true, true, true⟩
      = some { data_root := some (dockerd_path_on_sd_card ++ "/data"),
               use_tls := true, use_ipc_socket := true } ∧
    start_dockerd_argv
        { data_root := some (dockerd_path_on_sd_card ++ "/data"),
          use_tls := true, use_ipc_socket := true }
      = launch_argv_spec
        { data_root := some (dockerd_path_on_sd_card ++ "/data"),
          use_tls := true, use_ipc_socket := true } :=
  ⟨by decide,
   start_dockerd_argv_matches_spec ⟨true, true, true⟩
     ⟨true, some "ext4", true, true, true, true, true⟩
     { data_root := some (dockerd_path_on_sd_card ++ "/data"),
       use_tls := true, use_ipc_socket := true } (by decide)⟩

/-- C4: the child-exit handler clears the tracked pid; with no pending restart
it requests loop exit (recording `-1` exactly when the exit status was
abnormal); with a pending restart it clears the flag and attempts
resolve-and-launch, recording `-1` and requesting loop exit when that attempt
fails, and tracking the newly spawned pid when it succeeds; an abnormal exit
status records `-1` regardless of the branch taken. -/
theorem child_exit_callback_spec (st : SysState) (statusOk : Bool)
    (p : Params) (fs : Fs) (env : SpawnEnv) :
    (st.restart_dockerd = false →
      dockerd_process_exited_callback statusOk p fs env st
        = { st with
            exit_code := if statusOk then st.exit_code else -1,
            dockerd_process_pid := none, loop_running := false }) ∧
    (st.restart_dockerd = true →
      (dockerd_process_exited_callback statusOk p fs env st).restart_dockerd
        = false ∧
      (launch_ok p fs env = false →
        (dockerd_process_exited_callback statusOk p fs env st).exit_code = -1 ∧
        (dockerd_process_exited_callback statusOk p fs env st).loop_running
          = false) ∧
      (launch_ok p fs env = true →
        (dockerd_process_exited_callback statusOk p fs env st).dockerd_process_pid = some env.newPid)) ∧
    (statusOk = false →
      (dockerd_process_exited_callback statusOk p fs env st).exit_code = -1) := by
  unfold dockerd_process_exited_callback
  unfold read_settings_and_start_dockerd launch_ok start_dockerd
  rcases st with ⟨ec, pid, rd, lr⟩
  cases rd <;> cases statusOk <;>
    cases read_settings p fs <;>
    cases hsp : env.spawnOk <;> cases hal : env.alive <;>
    simp [hsp, hal]

theorem child_exit_callback_spec_witness :
    ({ exit_code := 0, dockerd_process_pid := some 7,
       restart_dockerd := true, loop_running := true } : SysState).restart_dockerd = true ∧
    (dockerd_process_exited_callback false ⟨false, false, false⟩
        ⟨true, some "ext4", true, true, true, true, true⟩ ⟨true, 9, true⟩
        { exit_code := 0, dockerd_process_pid := some 7,
          restart_dockerd := true, loop_running := true }).restart_dockerd
      = false ∧
    (dockerd_process_exited_callback false ⟨false, false, false⟩
        ⟨true, some "ext4", true, true, true, true, true⟩ ⟨true, 9, true⟩
        { exit_code := 0, dockerd_process_pid := some 7,
          restart_dockerd := true, loop_running := true }).dockerd_process_pid
      = some 9 ∧
    (dockerd_process_exited_callback false ⟨false, false, false⟩
        ⟨true, some "ext4", true, true, true, true, true⟩ ⟨true, 9, true⟩
        { exit_code := 0, dockerd_process_pid := some 7,
          restart_dockerd := true, loop_running := true }).exit_code = -1 := by
  have h := child_exit_callback_spec
    { exit_code := 0, dockerd_process_pid := some 7,
      restart_dockerd := true, loop_running := true }
    false ⟨false, false, false⟩
    ⟨true, some "ext4", true, true, true, true, true⟩ ⟨true, 9, true⟩
  exact ⟨rfl, (h.2.1 rfl).1, (h.2.1 rfl).2.2 (by decide), h.2.2 rfl⟩

/-- C9: a configuration-change notification whose prefix-stripped name matches
none of the three watched keys leaves the restart flag clear but still invokes
stop on the running daemon (a SIGTERM send is attempted); the subsequent
child-exit handling then requests loop exit without restarting. -/
theorem unwatched_param_change_stops_without_restart (st : SysState)
    (name : String) (senv : StopEnv) (q : Nat)
    (hname : parname_of name ∉ ax_parameters)
    (hflag : st.restart_dockerd = false)
    (hpid : st.dockerd_process_pid = some q) :
    (parameter_changed_callback name senv st).1.restart_dockerd = false ∧
    Sig.SIGTERM ∈ (parameter_changed_callback name senv st).2.sigs ∧
    (∀ statusOk p fs env,
      (dockerd_process_exited_callback statusOk p fs env
          (parameter_changed_callback name senv st).1).loop_running = false ∧
      (dockerd_process_exited_callback statusOk p fs env
          (parameter_changed_callback name senv st).1).dockerd_process_pid
        = none) := by
  have hstflag : (stop_dockerd senv st).st.restart_dockerd
      = st.restart_dockerd := by
    unfold stop_dockerd
    rw [hpid]
    cases hw : senv.exitDuringWait <;> simp [hw, hpid]
  have hterm : Sig.SIGTERM ∈ (stop_dockerd senv st).sigs := by
    unfold stop_dockerd
    rw [hpid]
    cases hw : senv.exitDuringWait <;> simp [hw, hpid]
  have hfst : (parameter_changed_callback name senv st).1.restart_dockerd
      = false := by
    unfold parameter_changed_callback
    simp only [if_neg hname]
    cases hok : (stop_dockerd senv st).ok <;> simp [hok, hstflag, hflag]
  have hsnd : (parameter_changed_callback name senv st).2
      = stop_dockerd senv st := by
    unfold parameter_changed_callback
    simp only [if_neg hname]
    cases hok : (stop_dockerd senv st).ok <;> simp [hok]
  refine ⟨hfst, ?_, ?_⟩
  · rw [hsnd]
    exact hterm
  · intro statusOk p fs env
    unfold dockerd_process_exited_callback
    cases hso : statusOk <;> simp [hfst]

set_option maxRecDepth 8000 in
theorem unwatched_param_change_stops_without_restart_witness :
    parname_of "root.dockerdwrapperwithcompose.Unrelated" ∉ ax_parameters ∧
    (parameter_changed_callback "root.dockerdwrapperwithcompose.Unrelated"
        ⟨true, true, true⟩
        { exit_code := 0, dockerd_process_pid := some 7,
          restart_dockerd := false, loop_running := true }).1.restart_dockerd
      = false ∧
    Sig.SIGTERM ∈ (parameter_changed_callback
        "root.dockerdwrapperwithcompose.Unrelated" ⟨true, true, true⟩
        { exit_code := 0, dockerd_process_pid := some 7,
          restart_dockerd := false, loop_running := true }).2.sigs := by
  have h := unwatched_param_change_stops_without_restart
    { exit_code := 0, dockerd_process_pid := some 7,
      restart_dockerd := false, loop_running := true }
    "root.dockerdwrapperwithcompose.Unrelated" ⟨true, true, true⟩ 7
    (by decide) rfl rfl
  exact ⟨by decide, h.1, h.2.1⟩

set_option maxRecDepth 8000 in
/-- C1 counterexample: at a concrete input where `stop_dockerd` fails to
confirm termination (pid tracked, no exit during the wait, SIGKILL send
fails), the configuration-change handler records `exit_code = -1` but the
main loop is NOT asked to exit — refuting the claim that the handler requests
loop exit when stop fails. -/
theorem param_change_stop_failure_no_loop_exit_cex :
    (parameter_changed_callback "root.dockerdwrapperwithcompose.UseTLS"
        ⟨true, false, false⟩
        { exit_code := 0, dockerd_process_pid := some 5,
          restart_dockerd := false, loop_running := true }).2.ok = false ∧
    (parameter_changed_callback "root.dockerdwrapperwithcompose.UseTLS"
        ⟨true, false, false⟩
        { exit_code := 0, dockerd_process_pid := some 5,
          restart_dockerd := false, loop_running := true }).1.exit_code = -1 ∧
    ¬ ((parameter_changed_callback "root.dockerdwrapperwithcompose.UseTLS"
        ⟨true, false, false⟩
        { exit_code := 0, dockerd_process_pid := some 5,
          restart_dockerd := false, loop_running := true }).1.loop_running
       = false) := by
  decide

/-- C1 (amended): when `stop_dockerd` fails inside the configuration-change
handler, the handler records the failure exit code `-1`, but it does not
request loop exit — the loop's running flag is left exactly as it was (the
log asks the operator to restart the application manually). -/
theorem param_change_stop_failure_records_only (st : SysState) (name : String)
    (senv : StopEnv)
    (h : (parameter_changed_callback name senv st).2.ok = false) :
    (parameter_changed_callback name senv st).1.exit_code = -1 ∧
    (parameter_changed_callback name senv st).1.loop_running
      = st.loop_running := by
  have hloop : ∀ st0 : SysState, (stop_dockerd senv st0).st.loop_running
      = st0.loop_running := by
    intro st0
    unfold stop_dockerd
    cases hp : st0.dockerd_process_pid <;>
      cases hw : senv.exitDuringWait <;> simp [hp, hw]
  by_cases hm : parname_of name ∈ ax_parameters
  · have hr : (parameter_changed_callback name senv st).2
        = stop_dockerd senv { st with restart_dockerd := true } := by
      unfold parameter_changed_callback
      simp only [if_pos hm]
      cases hok : (stop_dockerd senv { st with restart_dockerd := true }).ok <;>
        simp [hok]
    rw [hr] at h
    have h1 : (parameter_changed_callback name senv st).1
        = { (stop_dockerd senv { st with restart_dockerd := true }).st with
            exit_code := -1 } := by
      unfold parameter_changed_callback
      simp only [if_pos hm]
      simp [h]
    rw [h1]
    exact ⟨rfl, hloop { st with restart_dockerd := true }⟩
  · have hr : (parameter_changed_callback name senv st).2
        = stop_dockerd senv st := by
      unfold parameter_changed_callback
      simp only [if_neg hm]
      cases hok : (stop_dockerd senv st).ok <;> simp [hok]
    rw [hr] at h
    have h1 : (parameter_changed_callback name senv st).1
        = { (stop_dockerd senv st).st with exit_code := -1 } := by
      unfold parameter_changed_callback
      simp only [if_neg hm]
      simp [h]
    rw [h1]
    exact ⟨rfl, hloop st⟩

set_option maxRecDepth 8000 in
theorem param_change_stop_failure_records_only_witness :
    (parameter_changed_callback "root.dockerdwrapperwithcompose.SDCardSupport"
        ⟨false, false, false⟩
        { exit_code := 0, dockerd_process_pid := some 5,
          restart_dockerd := false, loop_running := true }).2.ok = false ∧
    (parameter_changed_callback "root.dockerdwrapperwithcompose.SDCardSupport"
        ⟨false, false, false⟩
        { exit_code := 0, dockerd_process_pid := some 5,
          restart_dockerd := false, loop_running := true }).1.exit_code = -1 ∧
    (parameter_changed_callback "root.dockerdwrapperwithcompose.SDCardSupport"
        ⟨false, false, false⟩
        { exit_code := 0, dockerd_process_pid := some 5,
          restart_dockerd := false, loop_running := true }).1.loop_running
      = ({ exit_code := 0, dockerd_process_pid := some 5,
           restart_dockerd := false, loop_running := true } : SysState).loop_running :=
  have h := param_change_stop_failure_records_only
    { exit_code := 0, dockerd_process_pid := some 5,
      restart_dockerd := false, loop_running := true }
    "root.dockerdwrapperwithcompose.SDCardSupport" ⟨false, false, false⟩
    (by decide)
  ⟨by decide, h.1, h.2⟩

theorem stop_dockerd_exit_code (senv : StopEnv) (st : SysState) :
    (stop_dockerd senv st).st.exit_code = st.exit_code := by
  unfold stop_dockerd
  cases hp : st.dockerd_process_pid <;> cases hw : senv.exitDuringWait <;>
    simp [hp, hw]

theorem step_exit_code (st : SysState) (e : Ev) :
    (step st e).exit_code = st.exit_code ∨ (step st e).exit_code = -1 := by
  cases e with
  | initialLaunch p fs env =>
    unfold step read_settings_and_start_dockerd start_dockerd
    cases hrs : read_settings p fs <;> cases hsp : env.spawnOk <;>
      cases hal : env.alive <;> simp [hrs, hsp, hal]
  | paramChanged name senv =>
    have hstep : step st (Ev.paramChanged name senv)
        = (parameter_changed_callback name senv st).1 := rfl
    rw [hstep]
    unfold parameter_changed_callback
    by_cases hm : parname_of name ∈ ax_parameters
    · simp only [if_pos hm]
      cases hok : (stop_dockerd senv { st with restart_dockerd := true }).ok <;>
        simp [hok, stop_dockerd_exit_code]
    · simp only [if_neg hm]
      cases hok : (stop_dockerd senv st).ok <;>
        simp [hok, stop_dockerd_exit_code]
  | childExited statusOk p fs env =>
    unfold step dockerd_process_exited_callback
    unfold read_settings_and_start_dockerd start_dockerd
    rcases st with ⟨ec, pid, rd, lr⟩
    cases rd <;> cases statusOk <;> cases hrs : read_settings p fs <;>
      cases hsp : env.spawnOk <;> cases hal : env.alive <;>
      simp [hrs, hsp, hal]
  | finalStop senv =>
    left
    show (stop_dockerd senv st).st.exit_code = st.exit_code
    exact stop_dockerd_exit_code senv st

theorem run_append (a b : List Ev) (st : SysState) :
    run st (a ++ b) = run (run st a) b := by
  induction a generalizing st with
  | nil => rfl
  | cons e es ih => simp [run, ih]

theorem run_exit_code_latched (evs : List Ev) (st : SysState)
    (h : st.exit_code = -1) : (run st evs).exit_code = -1 := by
  induction evs generalizing st with
  | nil => exact h
  | cons e es ih =>
    show (run (step st e) es).exit_code = -1
    rcases step_exit_code st e with h1 | h1
    · exact ih (step st e) (h1.trans h)
    · exact ih (step st e) h1

theorem run_exit_code_cases (evs : List Ev) (st : SysState) :
    (run st evs).exit_code = st.exit_code ∨ (run st evs).exit_code = -1 := by
  induction evs generalizing st with
  | nil => exact Or.inl rfl
  | cons e es ih =>
    show (run (step st e) es).exit_code = _ ∨ _
    rcases step_exit_code st e with h1 | h1
    · rcases ih (step st e) with h2 | h2
      · exact Or.inl (h2.trans h1)
      · exact Or.inr h2
    · exact Or.inr (run_exit_code_latched es (step st e) h1)

/-- C10: the accumulated exit code starts at 0, every handler step either
leaves it unchanged or sets it to the failure value `-1` (no step ever resets
it to 0 after a failure), and over any event sequence from the initial state
the final exit code is non-zero exactly when some prefix of the run has
recorded the failure value. -/
theorem exit_code_failure_latch :
    initState.exit_code = 0 ∧
    (∀ st e, (step st e).exit_code = st.exit_code ∨
             (step st e).exit_code = -1) ∧
    (∀ st e, st.exit_code = -1 → (step st e).exit_code = -1) ∧
    (∀ evs : List Ev, (run initState evs).exit_code ≠ 0 ↔
      ∃ n, n ≤ evs.length ∧
        (run initState (evs.take n)).exit_code = -1) := by
  refine ⟨rfl, step_exit_code, ?_, ?_⟩
  · intro st e h
    rcases step_exit_code st e with h1 | h1
    · exact h1.trans h
    · exact h1
  · intro evs
    constructor
    · intro h
      refine ⟨evs.length, le_rfl, ?_⟩
      rw [List.take_length]
      rcases run_exit_code_cases evs initState with h1 | h1
      · exact absurd h1 h
      · exact h1
    · rintro ⟨n, _, hneg⟩
      have hsplit : run initState evs
          = run (run initState (evs.take n)) (evs.drop n) := by
        rw [← run_append, List.take_append_drop]
      rw [hsplit, run_exit_code_latched (evs.drop n) _ hneg]
      decide

end DockerdWrapper
